import Mathlib

/-!
Verification of the structural contract of `Sources/CPipeline/include/cpipeline_vtab.h`
from the Pipeline repository.

The header declares two plain C structures used to bridge SQLite's
virtual-table C API into Swift:

- `struct cpipeline_sqlite3_vtab` with fields `sqlite3_vtab base;` and
  `void *virtual_table_module_ptr;` (in that order), and
- `struct cpipeline_sqlite3_vtab_cursor` with fields `sqlite3_vtab_cursor base;`
  and `void *virtual_table_cursor_ptr;` (in that order),

followed by a typedef for each.  The types `sqlite3_vtab` and
`sqlite3_vtab_cursor` come from the external header `sqlite3.h` (SQLite
itself, not part of this repository), so their sizes and alignments — and
the platform pointer size and alignment — are kept abstract as parameters.

Three views of the header are embedded:

1. a layout model: each struct is a list of fields with sizes and
   alignments, laid out by the standard C rule (each field at the next
   offset aligned to its type, total size padded to the struct alignment);
2. a byte-level model: a memory is a map from addresses to bytes, and the
   fields are read and written as little-endian byte ranges at the offsets
   the layout assigns;
3. a value-level model: each struct is a Lean structure with the same two
   fields, pointers represented as addresses (`Nat`, with `0` for NULL);
plus a small declaration AST transcribing the header's declaration list.
-/

namespace CPipeline

/-! ### Layout model of C structs -/

/-- A C struct member: its name together with the size and alignment of its
declared type. -/
structure CField where
  name : String
  size : Nat
  align : Nat
deriving DecidableEq, Repr

/-- Round `n` up to the next multiple of `a`: C compilers place each member at
the next offset correctly aligned for its type. -/
def alignUp (n a : Nat) : Nat := n + (a - n % a) % a

/-- Offsets the C layout rule assigns to a list of members starting at byte
`cur`: each member goes at the next offset aligned to its type, and occupies
`size` bytes from there. -/
def layoutFields : Nat → List CField → List (String × Nat)
  | _, [] => []
  | cur, f :: fs =>
    (f.name, alignUp cur f.align) :: layoutFields (alignUp cur f.align + f.size) fs

/-- One past the last byte used by the members, starting at `cur`. -/
def fieldsEnd : Nat → List CField → Nat
  | cur, [] => cur
  | cur, f :: fs => fieldsEnd (alignUp cur f.align + f.size) fs

/-- Alignment of a struct: the maximum alignment of its members. -/
def maxAlign (fs : List CField) : Nat := fs.foldl (fun a f => max a f.align) 1

/-- The C `sizeof` of a struct: the end of its members, padded up to the
struct alignment. -/
def structSize (fs : List CField) : Nat := alignUp (fieldsEnd 0 fs) (maxAlign fs)

/-- Offset of the member named `n` in a laid-out field list. -/
def fieldOffset : String → List (String × Nat) → Option Nat
  | _, [] => none
  | n, (m, off) :: rest => if m = n then some off else fieldOffset n rest

/-- Members of `struct cpipeline_sqlite3_vtab` (cpipeline_vtab.h lines 19-24):
`sqlite3_vtab base;` then `void *virtual_table_module_ptr;`.  `sqlite3_vtab`
is declared in the external `sqlite3.h`, so its size and alignment, and the
platform size and alignment of `void *`, are parameters. -/
def cpipeline_sqlite3_vtab_fields (baseSize baseAlign ptrSize ptrAlign : Nat) :
    List CField :=
  [⟨"base", baseSize, baseAlign⟩,
   ⟨"virtual_table_module_ptr", ptrSize, ptrAlign⟩]

/-- Members of `struct cpipeline_sqlite3_vtab_cursor` (cpipeline_vtab.h lines
28-33): `sqlite3_vtab_cursor base;` then `void *virtual_table_cursor_ptr;`. -/
def cpipeline_sqlite3_vtab_cursor_fields (baseSize baseAlign ptrSize ptrAlign : Nat) :
    List CField :=
  [⟨"base", baseSize, baseAlign⟩,
   ⟨"virtual_table_cursor_ptr", ptrSize, ptrAlign⟩]

/-- Byte offset the layout rule assigns to `virtual_table_module_ptr`. -/
def virtual_table_module_ptr_offset (baseSize ptrAlign : Nat) : Nat :=
  alignUp baseSize ptrAlign

/-- Byte offset the layout rule assigns to `virtual_table_cursor_ptr`. -/
def virtual_table_cursor_ptr_offset (baseSize ptrAlign : Nat) : Nat :=
  alignUp baseSize ptrAlign

theorem alignUp_zero (a : Nat) : alignUp 0 a = 0 := by
  simp [alignUp]

theorem le_alignUp (n a : Nat) : n ≤ alignUp n a :=
  Nat.le_add_right n _

/-- The layout of `struct cpipeline_sqlite3_vtab`, computed. -/
theorem cpipeline_sqlite3_vtab_layout (bs ba ps pa : Nat) :
    layoutFields 0 (cpipeline_sqlite3_vtab_fields bs ba ps pa) =
      [("base", 0),
       ("virtual_table_module_ptr", virtual_table_module_ptr_offset bs pa)] := by
  simp [cpipeline_sqlite3_vtab_fields, layoutFields, alignUp_zero,
    virtual_table_module_ptr_offset]

/-- The layout of `struct cpipeline_sqlite3_vtab_cursor`, computed. -/
theorem cpipeline_sqlite3_vtab_cursor_layout (bs ba ps pa : Nat) :
    layoutFields 0 (cpipeline_sqlite3_vtab_cursor_fields bs ba ps pa) =
      [("base", 0),
       ("virtual_table_cursor_ptr", virtual_table_cursor_ptr_offset bs pa)] := by
  simp [cpipeline_sqlite3_vtab_cursor_fields, layoutFields, alignUp_zero,
    virtual_table_cursor_ptr_offset]

/-! ### Byte-level model of field access -/

/-- A memory holding one struct instance: addresses (relative to the struct's
start) to byte values. -/
abbrev Mem := Nat → Nat

/-- Write one byte. -/
def storeByte (m : Mem) (i v : Nat) : Mem :=
  fun j => if j = i then v % 256 else m j

/-- Write the `len` low-order bytes of `v` at `off`, little-endian. -/
def storeBytes : Mem → Nat → Nat → Nat → Mem
  | m, _, 0, _ => m
  | m, off, len + 1, v => storeBytes (storeByte m off v) (off + 1) len (v / 256)

/-- Read `len` bytes at `off`, little-endian. -/
def loadBytes : Mem → Nat → Nat → Nat
  | _, _, 0 => 0
  | m, off, len + 1 => m off % 256 + 256 * loadBytes m (off + 1) len

theorem storeBytes_frame (len : Nat) :
    ∀ (m : Mem) (off v j : Nat), j < off ∨ off + len ≤ j →
      storeBytes m off len v j = m j := by
  induction len with
  | zero => intro m off v j _; rfl
  | succ k ih =>
    intro m off v j hj
    show storeBytes (storeByte m off v) (off + 1) k (v / 256) j = m j
    rw [ih (storeByte m off v) (off + 1) (v / 256) j (by omega)]
    show (if j = off then v % 256 else m j) = m j
    exact if_neg (by omega)

theorem loadBytes_congr (len : Nat) :
    ∀ (m1 m2 : Mem) (off : Nat),
      (∀ j, off ≤ j → j < off + len → m1 j = m2 j) →
      loadBytes m1 off len = loadBytes m2 off len := by
  induction len with
  | zero => intro m1 m2 off _; rfl
  | succ k ih =>
    intro m1 m2 off h
    show m1 off % 256 + 256 * loadBytes m1 (off + 1) k =
      m2 off % 256 + 256 * loadBytes m2 (off + 1) k
    rw [h off (Nat.le_refl off) (by omega),
      ih m1 m2 (off + 1) (fun j h1 h2 => h j (by omega) (by omega))]

theorem loadBytes_storeBytes (len : Nat) :
    ∀ (m : Mem) (off v : Nat),
      loadBytes (storeBytes m off len v) off len = v % 256 ^ len := by
  induction len with
  | zero => intro m off v; simp [loadBytes, storeBytes, Nat.mod_one]
  | succ k ih =>
    intro m off v
    show storeBytes (storeByte m off v) (off + 1) k (v / 256) off % 256 +
        256 * loadBytes (storeBytes (storeByte m off v) (off + 1) k (v / 256)) (off + 1) k =
      v % 256 ^ (k + 1)
    rw [storeBytes_frame k (storeByte m off v) (off + 1) (v / 256) off (by omega),
      ih (storeByte m off v) (off + 1) (v / 256)]
    show (if off = off then v % 256 else m off) % 256 + 256 * (v / 256 % 256 ^ k) =
      v % 256 ^ (k + 1)
    rw [if_pos rfl, Nat.mod_mod_of_dvd v (Nat.dvd_refl 256), Nat.pow_succ,
      Nat.mul_comm (256 ^ k) 256, Nat.mod_mul]

/-- Write a pointer value `p` into the `virtual_table_module_ptr` field of a
`cpipeline_sqlite3_vtab` instance held in `m`. -/
def store_virtual_table_module_ptr (baseSize ptrSize ptrAlign : Nat)
    (m : Mem) (p : Nat) : Mem :=
  storeBytes m (virtual_table_module_ptr_offset baseSize ptrAlign) ptrSize p

/-- Read the `virtual_table_module_ptr` field of a `cpipeline_sqlite3_vtab`
instance held in `m`. -/
def load_virtual_table_module_ptr (baseSize ptrSize ptrAlign : Nat) (m : Mem) : Nat :=
  loadBytes m (virtual_table_module_ptr_offset baseSize ptrAlign) ptrSize

/-- Write a pointer value `p` into the `virtual_table_cursor_ptr` field of a
`cpipeline_sqlite3_vtab_cursor` instance held in `m`. -/
def store_virtual_table_cursor_ptr (baseSize ptrSize ptrAlign : Nat)
    (m : Mem) (p : Nat) : Mem :=
  storeBytes m (virtual_table_cursor_ptr_offset baseSize ptrAlign) ptrSize p

/-- Read the `virtual_table_cursor_ptr` field of a
`cpipeline_sqlite3_vtab_cursor` instance held in `m`. -/
def load_virtual_table_cursor_ptr (baseSize ptrSize ptrAlign : Nat) (m : Mem) : Nat :=
  loadBytes m (virtual_table_cursor_ptr_offset baseSize ptrAlign) ptrSize

/-- Overwrite the `base` field (it sits at offset 0 in both structs and spans
`baseSize` bytes) with the `baseSize` low-order bytes of `v`. -/
def store_base (baseSize : Nat) (m : Mem) (v : Nat) : Mem :=
  storeBytes m 0 baseSize v

/-- Read the `baseSize` bytes of the `base` field at offset 0. -/
def load_base (baseSize : Nat) (m : Mem) : Nat :=
  loadBytes m 0 baseSize

/-! ### Value-level model of the two structs -/

/-- Value-level view of `struct cpipeline_sqlite3_vtab` (cpipeline_vtab.h
lines 19-24).  `Base` abstracts the contents of the external `sqlite3_vtab`;
the `void *` member is an address, with `0` standing for NULL. -/
structure cpipeline_sqlite3_vtab (Base : Type) where
  base : Base
  virtual_table_module_ptr : Nat

/-- Value-level view of `struct cpipeline_sqlite3_vtab_cursor`
(cpipeline_vtab.h lines 28-33). -/
structure cpipeline_sqlite3_vtab_cursor (Base : Type) where
  base : Base
  virtual_table_cursor_ptr : Nat

/-- Assignment `s.virtual_table_module_ptr = p`. -/
def cpipeline_sqlite3_vtab.set_module_ptr {Base : Type}
    (s : cpipeline_sqlite3_vtab Base) (p : Nat) : cpipeline_sqlite3_vtab Base :=
  { s with virtual_table_module_ptr := p }

/-- Assignment `s.base = b`. -/
def cpipeline_sqlite3_vtab.set_base {Base : Type}
    (s : cpipeline_sqlite3_vtab Base) (b : Base) : cpipeline_sqlite3_vtab Base :=
  { s with base := b }

/-- Assignment `c.virtual_table_cursor_ptr = p`. -/
def cpipeline_sqlite3_vtab_cursor.set_cursor_ptr {Base : Type}
    (c : cpipeline_sqlite3_vtab_cursor Base) (p : Nat) :
    cpipeline_sqlite3_vtab_cursor Base :=
  { c with virtual_table_cursor_ptr := p }

/-- Assignment `c.base = b`. -/
def cpipeline_sqlite3_vtab_cursor.set_base {Base : Type}
    (c : cpipeline_sqlite3_vtab_cursor Base) (b : Base) :
    cpipeline_sqlite3_vtab_cursor Base :=
  { c with base := b }

/-! ### Declaration list of the header -/

/-- A top-level declaration of the C header: a struct definition (name and
ordered members, each a type/name pair), a typedef, or a function
declaration. -/
inductive CHeaderDecl where
  | structDef (name : String) (fields : List (String × String)) : CHeaderDecl
  | typedefDecl (newName oldName : String) : CHeaderDecl
  | funDecl (name : String) : CHeaderDecl
deriving DecidableEq, Repr

/-- The declarations of `cpipeline_vtab.h`, in file order, after its single
include of the external `sqlite3.h`: the two struct definitions, each
followed by a typedef of the same name.  Members are (type, name) pairs in
declaration order. -/
def cpipeline_vtab_h : List CHeaderDecl :=
  [.structDef "cpipeline_sqlite3_vtab"
     [("sqlite3_vtab", "base"), ("void *", "virtual_table_module_ptr")],
   .typedefDecl "cpipeline_sqlite3_vtab" "struct cpipeline_sqlite3_vtab",
   .structDef "cpipeline_sqlite3_vtab_cursor"
     [("sqlite3_vtab_cursor", "base"), ("void *", "virtual_table_cursor_ptr")],
   .typedefDecl "cpipeline_sqlite3_vtab_cursor" "struct cpipeline_sqlite3_vtab_cursor"]

/-- The struct definition carried by a declaration, if any. -/
def structDefOf : CHeaderDecl → Option (String × List (String × String))
  | .structDef n fs => some (n, fs)
  | _ => none

/-- Whether a declaration declares a function. -/
def isFunDecl : CHeaderDecl → Bool
  | .funDecl _ => true
  | _ => false

/-! ### Supporting layout lemmas -/

theorem fieldsEnd_vtab (bs ba ps pa : Nat) :
    fieldsEnd 0 (cpipeline_sqlite3_vtab_fields bs ba ps pa) = alignUp bs pa + ps := by
  simp [fieldsEnd, cpipeline_sqlite3_vtab_fields, alignUp_zero]

theorem fieldsEnd_vtab_cursor (bs ba ps pa : Nat) :
    fieldsEnd 0 (cpipeline_sqlite3_vtab_cursor_fields bs ba ps pa) =
      alignUp bs pa + ps := by
  simp [fieldsEnd, cpipeline_sqlite3_vtab_cursor_fields, alignUp_zero]

theorem fieldsEnd_le_structSize (fs : List CField) :
    fieldsEnd 0 fs ≤ structSize fs :=
  le_alignUp (fieldsEnd 0 fs) (maxAlign fs)

/-! ### Claim theorems -/

/-- C1: in every layout of `struct cpipeline_sqlite3_vtab` — for all sizes
and alignments of the external `sqlite3_vtab` and of `void *` — the `base`
member sits at byte offset 0, so the address of an instance is the address of
its `base` and a pointer to the structure reinterprets to `sqlite3_vtab *`
and back unchanged. -/
theorem vtab_base_offset_eq_zero (bs ba ps pa : Nat) :
    fieldOffset "base"
      (layoutFields 0 (cpipeline_sqlite3_vtab_fields bs ba ps pa)) = some 0 := by
  simp [cpipeline_sqlite3_vtab_fields, layoutFields, fieldOffset, alignUp_zero]

/-- C2: in every layout of `struct cpipeline_sqlite3_vtab_cursor`, the `base`
member sits at byte offset 0, so a pointer to the structure reinterprets to
`sqlite3_vtab_cursor *` and back unchanged. -/
theorem vtab_cursor_base_offset_eq_zero (bs ba ps pa : Nat) :
    fieldOffset "base"
      (layoutFields 0 (cpipeline_sqlite3_vtab_cursor_fields bs ba ps pa)) =
      some 0 := by
  simp [cpipeline_sqlite3_vtab_cursor_fields, layoutFields, fieldOffset,
    alignUp_zero]

/-- C3: storing any non-null pointer value into `virtual_table_module_ptr`
(respectively `virtual_table_cursor_ptr`) and reading the field back yields
the value bit-identically, for every layout of the external base type and
every pointer width. -/
theorem ptr_field_roundtrip (bs ps pa : Nat) (m : Mem) (p : Nat)
    (hw : p < 256 ^ ps) (hnn : p ≠ 0) :
    load_virtual_table_module_ptr bs ps pa
        (store_virtual_table_module_ptr bs ps pa m p) = p ∧
    load_virtual_table_cursor_ptr bs ps pa
        (store_virtual_table_cursor_ptr bs ps pa m p) = p := by
  refine ⟨?_, ?_⟩ <;>
    simp only [load_virtual_table_module_ptr, store_virtual_table_module_ptr,
      load_virtual_table_cursor_ptr, store_virtual_table_cursor_ptr] <;>
    rw [loadBytes_storeBytes ps, Nat.mod_eq_of_lt hw]

/-- Witness for C3 at a 64-bit layout: `sqlite3_vtab` of size 24, pointer
size and alignment 8, pointer value 1, zeroed memory. -/
theorem ptr_field_roundtrip_witness :
    load_virtual_table_module_ptr 24 8 8
        (store_virtual_table_module_ptr 24 8 8 (fun _ => 0) 1) = 1 ∧
    load_virtual_table_cursor_ptr 24 8 8
        (store_virtual_table_cursor_ptr 24 8 8 (fun _ => 0) 1) = 1 :=
  ptr_field_roundtrip 24 8 8 (fun _ => 0) 1 (by norm_num) (by decide)

/-- C4: the `sizeof` of each structure is at least the size of its `base`
member plus the pointer size, and the byte ranges of the two members are
disjoint, for every layout of the external base type. -/
theorem struct_size_and_field_disjointness (bs ba ps pa : Nat) :
    bs + ps ≤ structSize (cpipeline_sqlite3_vtab_fields bs ba ps pa) ∧
    (∀ i, i < bs →
      ¬ (virtual_table_module_ptr_offset bs pa ≤ i ∧
         i < virtual_table_module_ptr_offset bs pa + ps)) ∧
    bs + ps ≤ structSize (cpipeline_sqlite3_vtab_cursor_fields bs ba ps pa) ∧
    (∀ i, i < bs →
      ¬ (virtual_table_cursor_ptr_offset bs pa ≤ i ∧
         i < virtual_table_cursor_ptr_offset bs pa + ps)) := by
  have hb := le_alignUp bs pa
  refine ⟨?_, ?_, ?_, ?_⟩
  · have h1 := fieldsEnd_le_structSize (cpipeline_sqlite3_vtab_fields bs ba ps pa)
    rw [fieldsEnd_vtab] at h1
    omega
  · intro i hi hrange
    simp only [virtual_table_module_ptr_offset] at hrange
    omega
  · have h1 := fieldsEnd_le_structSize (cpipeline_sqlite3_vtab_cursor_fields bs ba ps pa)
    rw [fieldsEnd_vtab_cursor] at h1
    omega
  · intro i hi hrange
    simp only [virtual_table_cursor_ptr_offset] at hrange
    omega

/-- C5: writing the opaque pointer field changes no byte of `base`, and
writing `base` changes no byte of the opaque pointer field, in both
structures, for every layout. -/
theorem field_writes_do_not_interfere (bs ps pa : Nat) (m : Mem) (p v : Nat) :
    load_base bs (store_virtual_table_module_ptr bs ps pa m p) = load_base bs m ∧
    load_virtual_table_module_ptr bs ps pa (store_base bs m v) =
      load_virtual_table_module_ptr bs ps pa m ∧
    load_base bs (store_virtual_table_cursor_ptr bs ps pa m p) = load_base bs m ∧
    load_virtual_table_cursor_ptr bs ps pa (store_base bs m v) =
      load_virtual_table_cursor_ptr bs ps pa m := by
  have hb := le_alignUp bs pa
  refine ⟨?_, ?_, ?_, ?_⟩
  · simp only [load_base, store_virtual_table_module_ptr,
      virtual_table_module_ptr_offset]
    exact loadBytes_congr bs _ m 0 (fun j h0 hj =>
      storeBytes_frame ps m (alignUp bs pa) p j (Or.inl (by omega)))
  · simp only [load_virtual_table_module_ptr, store_base,
      virtual_table_module_ptr_offset]
    exact loadBytes_congr ps _ m (alignUp bs pa) (fun j hj _ =>
      storeBytes_frame bs m 0 v j (Or.inr (by omega)))
  · simp only [load_base, store_virtual_table_cursor_ptr,
      virtual_table_cursor_ptr_offset]
    exact loadBytes_congr bs _ m 0 (fun j h0 hj =>
      storeBytes_frame ps m (alignUp bs pa) p j (Or.inl (by omega)))
  · simp only [load_virtual_table_cursor_ptr, store_base,
      virtual_table_cursor_ptr_offset]
    exact loadBytes_congr ps _ m (alignUp bs pa) (fun j hj _ =>
      storeBytes_frame bs m 0 v j (Or.inr (by omega)))

/-- C6: the header's declaration list contains exactly two struct
definitions — `cpipeline_sqlite3_vtab` with members `base` then
`virtual_table_module_ptr`, and `cpipeline_sqlite3_vtab_cursor` with members
`base` then `virtual_table_cursor_ptr`, each in that order — and declares no
function. -/
theorem header_is_purely_structural :
    cpipeline_vtab_h.filterMap structDefOf =
      [("cpipeline_sqlite3_vtab",
        [("sqlite3_vtab", "base"), ("void *", "virtual_table_module_ptr")]),
       ("cpipeline_sqlite3_vtab_cursor",
        [("sqlite3_vtab_cursor", "base"), ("void *", "virtual_table_cursor_ptr")])] ∧
    cpipeline_vtab_h.filter isFunDecl = [] :=
  ⟨rfl, rfl⟩

/-- C7: field accesses perform no validation and cannot fail: for every
instance and every value, including the NULL pointer (0), writing either
field succeeds, reading it back yields exactly the written value, and the
other field is untouched. -/
theorem field_access_total_and_unvalidated (Base : Type)
    (s : cpipeline_sqlite3_vtab Base) (c : cpipeline_sqlite3_vtab_cursor Base)
    (b : Base) (p : Nat) :
    (s.set_module_ptr p).virtual_table_module_ptr = p ∧
    (s.set_module_ptr p).base = s.base ∧
    (s.set_base b).base = b ∧
    (s.set_base b).virtual_table_module_ptr = s.virtual_table_module_ptr ∧
    (c.set_cursor_ptr p).virtual_table_cursor_ptr = p ∧
    (c.set_cursor_ptr p).base = c.base ∧
    (c.set_base b).base = b ∧
    (c.set_base b).virtual_table_cursor_ptr = c.virtual_table_cursor_ptr :=
  ⟨rfl, rfl, rfl, rfl, rfl, rfl, rfl, rfl⟩

/-- C8: the store-then-load round trip also holds for the NULL pointer:
storing 0 into either opaque pointer field and reading it back yields 0, for
every layout. -/
theorem null_ptr_roundtrip (bs ps pa : Nat) (m : Mem) :
    load_virtual_table_module_ptr bs ps pa
        (store_virtual_table_module_ptr bs ps pa m 0) = 0 ∧
    load_virtual_table_cursor_ptr bs ps pa
        (store_virtual_table_cursor_ptr bs ps pa m 0) = 0 := by
  refine ⟨?_, ?_⟩ <;>
    simp only [load_virtual_table_module_ptr, store_virtual_table_module_ptr,
      load_virtual_table_cursor_ptr, store_virtual_table_cursor_ptr] <;>
    rw [loadBytes_storeBytes ps, Nat.zero_mod]

/-- C9: the structures carry no state beyond their two declared fields: two
instances with equal `base` and equal opaque pointer field are equal. -/
theorem struct_determined_by_fields (Base : Type)
    (s t : cpipeline_sqlite3_vtab Base) (c d : cpipeline_sqlite3_vtab_cursor Base)
    (h1 : s.base = t.base)
    (h2 : s.virtual_table_module_ptr = t.virtual_table_module_ptr)
    (h3 : c.base = d.base)
    (h4 : c.virtual_table_cursor_ptr = d.virtual_table_cursor_ptr) :
    s = t ∧ c = d := by
  obtain ⟨sb, sp⟩ := s; obtain ⟨tb, tp⟩ := t
  obtain ⟨cb, cp⟩ := c; obtain ⟨db, dp⟩ := d
  simp only [cpipeline_sqlite3_vtab.mk.injEq, cpipeline_sqlite3_vtab_cursor.mk.injEq]
  exact ⟨⟨h1, h2⟩, h3, h4⟩

/-- Witness for C9 at concrete instances over `Base := Nat`. -/
theorem struct_determined_by_fields_witness :
    (⟨0, 1⟩ : cpipeline_sqlite3_vtab Nat) = ⟨0, 1⟩ ∧
    (⟨2, 3⟩ : cpipeline_sqlite3_vtab_cursor Nat) = ⟨2, 3⟩ :=
  struct_determined_by_fields Nat ⟨0, 1⟩ ⟨0, 1⟩ ⟨2, 3⟩ ⟨2, 3⟩ rfl rfl rfl rfl

/-- C10: reading the opaque pointer field depends only on that field's bytes:
two instances whose bytes agree from the end of `base` onward — they differ
at most in `base`'s contents — yield the same pointer value, in both
structures. -/
theorem load_ptr_independent_of_base (bs ps pa : Nat) (m1 m2 : Mem)
    (h : ∀ j, bs ≤ j → m1 j = m2 j) :
    load_virtual_table_module_ptr bs ps pa m1 =
      load_virtual_table_module_ptr bs ps pa m2 ∧
    load_virtual_table_cursor_ptr bs ps pa m1 =
      load_virtual_table_cursor_ptr bs ps pa m2 := by
  have hb := le_alignUp bs pa
  refine ⟨?_, ?_⟩ <;>
    simp only [load_virtual_table_module_ptr, load_virtual_table_cursor_ptr,
      virtual_table_module_ptr_offset, virtual_table_cursor_ptr_offset] <;>
    exact loadBytes_congr ps m1 m2 (alignUp bs pa) (fun j hj _ => h j (by omega))

/-- Witness for C10: a zeroed instance against one whose `base` bytes are
scribbled, at a 64-bit layout. -/
theorem load_ptr_independent_of_base_witness :
    load_virtual_table_module_ptr 24 8 8 (fun _ => 0) =
      load_virtual_table_module_ptr 24 8 8 (fun j => if j < 24 then j + 7 else 0) ∧
    load_virtual_table_cursor_ptr 24 8 8 (fun _ => 0) =
      load_virtual_table_cursor_ptr 24 8 8 (fun j => if j < 24 then j + 7 else 0) :=
  load_ptr_independent_of_base 24 8 8 (fun _ => 0)
    (fun j => if j < 24 then j + 7 else 0)
    (fun j hj => by simp only [if_neg (Nat.not_lt.mpr hj)])

end CPipeline
